import Mathlib

/-!
Verification of the cost model of `cost_calculator_app.py`.

The only behavioural core of the repository is the pure function
`calculate_costs` (lines 268-324 of `cost_calculator_app.py`): it maps
eleven scalar inputs to sixteen scalar outputs by elementary arithmetic.
Python's real-valued arithmetic is embedded as exact rational arithmetic
(`ℚ`), and Python's `int(...)` cast — truncation toward zero — is
embedded as `pytrunc` below.  Divisions whose denominator can be zero
(by `production_period_months` at line 279 and by
`depreciation_period_years` at line 295) would raise `ZeroDivisionError`
in Python; accordingly the embedded `calculate_costs` returns an
`Option`, `none` exactly when such a division is reached.
-/

namespace CostCalc

/-- Python's `int(q)` on a real value: truncation toward zero
(`int(0.7) = 0`, `int(-0.7) = 0`, `int(-1.5) = -1`). -/
def pytrunc (q : ℚ) : ℤ :=
  if 0 ≤ q then ⌊q⌋ else ⌈q⌉

/-- The eleven scalar inputs of `calculate_costs`
(`cost_calculator_app.py` lines 268-271).  Quantities that the
application supplies as Python ints are `ℕ`, the rest are real-valued
and embedded as `ℚ`. -/
structure Inputs where
  production_period_months : ℕ
  target_glab_sales : ℕ
  monthly_glab_capacity : ℚ
  optical_block_price : ℚ
  optical_quartz_price : ℚ
  other_parts_price : ℚ
  required_workers : ℕ
  annual_salary : ℚ
  initial_setup_cost : ℚ
  depreciation_period_years : ℕ
  optical_module_price_won : ℚ
deriving DecidableEq

/-- Line 274: `annual_glab_capacity = monthly_glab_capacity * 12`. -/
def annual_glab_capacity (i : Inputs) : ℚ :=
  i.monthly_glab_capacity * 12

/-- Line 275: `modules_per_glab = 12`. -/
def modules_per_glab : ℕ := 12

/-- Line 276: `total_optical_modules = target_glab_sales * modules_per_glab`
(a Python int, product of two ints). -/
def total_optical_modules (i : Inputs) : ℤ :=
  (i.target_glab_sales : ℤ) * (modules_per_glab : ℤ)

/-- Line 279: `monthly_optical_modules = total_optical_modules / production_period_months`
(Python true division, real-valued). -/
def monthly_optical_modules (i : Inputs) : ℚ :=
  (total_optical_modules i : ℚ) / (i.production_period_months : ℚ)

/-- Line 280: `daily_optical_modules = monthly_optical_modules / 30`. -/
def daily_optical_modules (i : Inputs) : ℚ :=
  monthly_optical_modules i / 30

/-- Line 283: `required_glab_per_month = target_glab_sales / production_period_months`. -/
def required_glab_per_month (i : Inputs) : ℚ :=
  (i.target_glab_sales : ℚ) / (i.production_period_months : ℚ)

/-- Line 284: `production_feasible = required_glab_per_month <= monthly_glab_capacity`. -/
def production_feasible (i : Inputs) : Bool :=
  decide (required_glab_per_month i ≤ i.monthly_glab_capacity)

/-- Line 285:
`capacity_shortage = max(0, target_glab_sales - (annual_glab_capacity * production_period_months / 12))`. -/
def capacity_shortage (i : Inputs) : ℚ :=
  max 0 ((i.target_glab_sales : ℚ) -
    annual_glab_capacity i * (i.production_period_months : ℚ) / 12)

/-- Line 288: `optical_quartz_cost_per_block = optical_quartz_price * 16`. -/
def optical_quartz_cost_per_block (i : Inputs) : ℚ :=
  i.optical_quartz_price * 16

/-- Line 289:
`optical_block_manufacturing_cost = optical_block_price + optical_quartz_cost_per_block + other_parts_price`. -/
def optical_block_manufacturing_cost (i : Inputs) : ℚ :=
  i.optical_block_price + optical_quartz_cost_per_block i + i.other_parts_price

/-- Line 291: `total_material_cost = optical_block_manufacturing_cost * total_optical_modules`. -/
def total_material_cost (i : Inputs) : ℚ :=
  optical_block_manufacturing_cost i * (total_optical_modules i : ℚ)

/-- Line 292:
`total_labor_cost = annual_salary * required_workers * (production_period_months / 12)`. -/
def total_labor_cost (i : Inputs) : ℚ :=
  i.annual_salary * (i.required_workers : ℚ) * ((i.production_period_months : ℚ) / 12)

/-- Line 295: `annual_depreciation = initial_setup_cost / depreciation_period_years`. -/
def annual_depreciation (i : Inputs) : ℚ :=
  i.initial_setup_cost / (i.depreciation_period_years : ℚ)

/-- Line 296: `depreciation_cost = annual_depreciation * (production_period_months / 12)`. -/
def depreciation_cost (i : Inputs) : ℚ :=
  annual_depreciation i * ((i.production_period_months : ℚ) / 12)

/-- Line 298:
`total_production_cost = total_material_cost + total_labor_cost + depreciation_cost`
(the unrounded local variables). -/
def total_production_cost (i : Inputs) : ℚ :=
  total_material_cost i + total_labor_cost i + depreciation_cost i

/-- Line 301: `annual_optical_modules = total_optical_modules * (12 / production_period_months)`. -/
def annual_optical_modules (i : Inputs) : ℚ :=
  (total_optical_modules i : ℚ) * (12 / (i.production_period_months : ℚ))

/-- Line 302: `annual_revenue = annual_optical_modules * optical_module_price_won`. -/
def annual_revenue (i : Inputs) : ℚ :=
  annual_optical_modules i * i.optical_module_price_won

/-- Line 303:
`annual_production_cost = (total_material_cost + total_labor_cost) * (12 / production_period_months) + annual_depreciation`. -/
def annual_production_cost (i : Inputs) : ℚ :=
  (total_material_cost i + total_labor_cost i) * (12 / (i.production_period_months : ℚ)) +
    annual_depreciation i

/-- Line 304: `annual_profit = annual_revenue - annual_production_cost`. -/
def annual_profit (i : Inputs) : ℚ :=
  annual_revenue i - annual_production_cost i

/-- Line 305:
`profit_margin = (annual_profit / annual_revenue) * 100 if annual_revenue > 0 else 0`
(computed from the unrounded local variables). -/
def profit_margin (i : Inputs) : ℚ :=
  if 0 < annual_revenue i then annual_profit i / annual_revenue i * 100 else 0

/-- The sixteen outputs returned as the dict of lines 307-324.  Fields
returned through Python's `int(...)` cast are `ℤ`; `annual_glab_capacity`
and `profit_margin` are returned uncast and stay `ℚ`;
`production_feasible` is a `Bool`. -/
structure Outputs where
  annual_glab_capacity : ℚ
  total_optical_modules : ℤ
  monthly_optical_modules : ℤ
  daily_optical_modules : ℤ
  production_feasible : Bool
  capacity_shortage : ℤ
  optical_block_manufacturing_cost : ℤ
  total_material_cost : ℤ
  total_labor_cost : ℤ
  total_production_cost : ℤ
  annual_depreciation : ℤ
  depreciation_cost : ℤ
  annual_revenue : ℤ
  annual_production_cost : ℤ
  annual_profit : ℤ
  profit_margin : ℚ
deriving DecidableEq

/-- The dict built at lines 307-324: each rounded entry applies
Python's `int(...)` (`pytrunc`) to the corresponding unrounded local
variable; `total_optical_modules` is already an int. -/
def outputs_of (i : Inputs) : Outputs where
  annual_glab_capacity := annual_glab_capacity i
  total_optical_modules := total_optical_modules i
  monthly_optical_modules := pytrunc (monthly_optical_modules i)
  daily_optical_modules := pytrunc (daily_optical_modules i)
  production_feasible := production_feasible i
  capacity_shortage := pytrunc (capacity_shortage i)
  optical_block_manufacturing_cost := pytrunc (optical_block_manufacturing_cost i)
  total_material_cost := pytrunc (total_material_cost i)
  total_labor_cost := pytrunc (total_labor_cost i)
  total_production_cost := pytrunc (total_production_cost i)
  annual_depreciation := pytrunc (annual_depreciation i)
  depreciation_cost := pytrunc (depreciation_cost i)
  annual_revenue := pytrunc (annual_revenue i)
  annual_production_cost := pytrunc (annual_production_cost i)
  annual_profit := pytrunc (annual_profit i)
  profit_margin := profit_margin i

/-- `calculate_costs` (lines 268-324).  The first division by
`production_period_months` is executed at line 279 and the division by
`depreciation_period_years` at line 295; a zero denominator there raises
`ZeroDivisionError` in Python, embedded as `none`.  All other
denominators are the nonzero constants 30 and 12, or are guarded
(`annual_revenue > 0` at line 305). -/
def calculate_costs (i : Inputs) : Option Outputs :=
  if i.production_period_months = 0 then none
  else if i.depreciation_period_years = 0 then none
  else some (outputs_of i)

/-- The input constraints stated by the spec (§3): months in 1..60,
years in 1..20, sales and workers at least 1, capacity positive, all
prices/costs non-negative. -/
def ValidInputs (i : Inputs) : Prop :=
  1 ≤ i.production_period_months ∧ i.production_period_months ≤ 60 ∧
  1 ≤ i.target_glab_sales ∧
  0 < i.monthly_glab_capacity ∧
  0 ≤ i.optical_block_price ∧
  0 ≤ i.optical_quartz_price ∧
  0 ≤ i.other_parts_price ∧
  1 ≤ i.required_workers ∧
  0 ≤ i.annual_salary ∧
  0 ≤ i.initial_setup_cost ∧
  1 ≤ i.depreciation_period_years ∧ i.depreciation_period_years ≤ 20 ∧
  0 ≤ i.optical_module_price_won

instance (i : Inputs) : Decidable (ValidInputs i) := by
  unfold ValidInputs; infer_instance

/-- Scenario A of the spec (§8), with
`optical_module_price_won = 5.0 * 10000000 / 12 = 50000000 / 12`. -/
def scenarioA : Inputs where
  production_period_months := 12
  target_glab_sales := 600
  monthly_glab_capacity := 50
  optical_block_price := 140000
  optical_quartz_price := 3750
  other_parts_price := 1000
  required_workers := 1
  annual_salary := 40000000
  initial_setup_cost := 30000000
  depreciation_period_years := 5
  optical_module_price_won := 50000000 / 12

/-- Input with a fractional labor and depreciation cost: 6 months, one
worker with annual salary 1, setup cost 1 depreciated over 1 year, all
part prices and the module price 0, capacity as derived upstream. -/
def exC1 : Inputs where
  production_period_months := 6
  target_glab_sales := 1
  monthly_glab_capacity := 1 / 6
  optical_block_price := 0
  optical_quartz_price := 0
  other_parts_price := 0
  required_workers := 1
  annual_salary := 1
  initial_setup_cost := 1
  depreciation_period_years := 1
  optical_module_price_won := 0

/-- Input whose capacity falls short of the monthly requirement by half
a unit: one month, one GLAB targeted, capacity 1/2. -/
def exC2 : Inputs where
  production_period_months := 1
  target_glab_sales := 1
  monthly_glab_capacity := 1 / 2
  optical_block_price := 0
  optical_quartz_price := 0
  other_parts_price := 0
  required_workers := 1
  annual_salary := 0
  initial_setup_cost := 0
  depreciation_period_years := 1
  optical_module_price_won := 0

/-- Input with zero revenue and a fractional positive production cost,
so the real-valued annual profit is -3/2. -/
def exC4 : Inputs where
  production_period_months := 6
  target_glab_sales := 1
  monthly_glab_capacity := 1 / 6
  optical_block_price := 0
  optical_quartz_price := 0
  other_parts_price := 0
  required_workers := 1
  annual_salary := 1
  initial_setup_cost := 1
  depreciation_period_years := 2
  optical_module_price_won := 0

/-- Input whose real-valued annual revenue is 1/2: positive, but
truncated to 0 in the returned dict. -/
def exC5 : Inputs where
  production_period_months := 12
  target_glab_sales := 1
  monthly_glab_capacity := 1 / 12
  optical_block_price := 0
  optical_quartz_price := 0
  other_parts_price := 0
  required_workers := 1
  annual_salary := 0
  initial_setup_cost := 0
  depreciation_period_years := 1
  optical_module_price_won := 1 / 24

/-! ### Helper lemmas -/

theorem pytrunc_of_nonneg {q : ℚ} (h : 0 ≤ q) : pytrunc q = ⌊q⌋ :=
  if_pos h

theorem pytrunc_mono {q r : ℚ} (h : q ≤ r) : pytrunc q ≤ pytrunc r := by
  unfold pytrunc
  by_cases hq : 0 ≤ q
  · rw [if_pos hq, if_pos (hq.trans h)]
    exact Int.floor_le_floor h
  · rw [if_neg hq]
    by_cases hr : 0 ≤ r
    · rw [if_pos hr]
      exact le_trans (Int.ceil_le.2 (by exact_mod_cast (lt_of_not_le hq).le))
        (Int.floor_nonneg.2 hr)
    · rw [if_neg hr]
      exact Int.ceil_le_ceil h

/-- Inversion of a successful `calculate_costs` call. -/
theorem calculate_costs_some {i : Inputs} {o : Outputs}
    (h : calculate_costs i = some o) :
    i.production_period_months ≠ 0 ∧ i.depreciation_period_years ≠ 0 ∧
      o = outputs_of i := by
  by_cases h1 : i.production_period_months = 0
  · simp [calculate_costs, h1] at h
  · by_cases h2 : i.depreciation_period_years = 0
    · simp [calculate_costs, h1, h2] at h
    · refine ⟨h1, h2, ?_⟩
      simp only [calculate_costs, if_neg h1, if_neg h2, Option.some.injEq] at h
      exact h.symm

/-- Flooring a real value and then dividing by a positive integer,
flooring again, equals flooring the single division. -/
theorem intFloor_div_natCast (x : ℚ) (d : ℕ) (hd : 0 < d) :
    ⌊x / (d : ℚ)⌋ = ⌊x⌋ / (d : ℤ) := by
  have hd0 : (0 : ℚ) < (d : ℚ) := by exact_mod_cast hd
  have hdz : (0 : ℤ) < (d : ℤ) := by exact_mod_cast hd
  rw [Int.floor_eq_iff]
  constructor
  · rw [le_div_iff₀ hd0]
    have h1 : ⌊x⌋ / (d : ℤ) * d ≤ ⌊x⌋ := Int.ediv_mul_le ⌊x⌋ hdz.ne'
    calc ((⌊x⌋ / (d : ℤ) : ℤ) : ℚ) * (d : ℚ) = ((⌊x⌋ / (d : ℤ) * d : ℤ) : ℚ) := by
          push_cast; ring
      _ ≤ ((⌊x⌋ : ℤ) : ℚ) := by exact_mod_cast h1
      _ ≤ x := Int.floor_le x
  · rw [div_lt_iff₀ hd0]
    have h2 : ⌊x⌋ + 1 ≤ (⌊x⌋ / (d : ℤ) + 1) * d :=
      Int.add_one_le_iff.2 (Int.lt_ediv_add_one_mul_self ⌊x⌋ hdz)
    calc x < (⌊x⌋ : ℚ) + 1 := Int.lt_floor_add_one x
      _ ≤ (((⌊x⌋ / (d : ℤ) + 1) * d : ℤ) : ℚ) := by exact_mod_cast h2
      _ = ((⌊x⌋ / (d : ℤ) : ℤ) : ℚ) * (d : ℚ) + (d : ℚ) := by push_cast; ring
      _ = (((⌊x⌋ / (d : ℤ) : ℤ) : ℚ) + 1) * (d : ℚ) := by ring

/-! ### Claims -/

/-- C1 counterexample: at `exC1` the code returns
`total_production_cost = 1`, computed by truncating the unrounded sum
`0 + 1/2 + 1/2 = 1`, while the floor of the sum of the already-floored
stored components `0 + 0 + 0` is `0`. -/
theorem C1_counterexample :
    (calculate_costs exC1).map
      (fun o => (o.total_production_cost,
        o.total_material_cost + o.total_labor_cost + o.depreciation_cost)) =
      some (1, 0) := by
  have h : calculate_costs exC1 = some (outputs_of exC1) := rfl
  rw [h]
  norm_num [outputs_of, pytrunc, total_production_cost, total_material_cost,
    total_labor_cost, depreciation_cost, annual_depreciation,
    optical_block_manufacturing_cost, optical_quartz_cost_per_block,
    total_optical_modules, modules_per_glab, exC1]

/-- C1 amended: for every input satisfying the stated constraints the
returned `total_production_cost` is the floor of the sum of the
unrounded real-valued material, labor and depreciation costs (line 298
adds the unrounded local variables, and the sum is non-negative so
truncation agrees with floor). -/
theorem C1_total_production_cost_floor (i : Inputs) (o : Outputs)
    (h : calculate_costs i = some o) (hv : ValidInputs i) :
    o.total_production_cost =
      ⌊total_material_cost i + total_labor_cost i + depreciation_cost i⌋ := by
  obtain ⟨-, -, rfl⟩ := calculate_costs_some h
  obtain ⟨-, -, -, -, hb, hq, ho, -, hs, hsetup, -, -, -⟩ := hv
  have hmods : (0 : ℚ) ≤ (total_optical_modules i : ℚ) := by
    unfold total_optical_modules
    push_cast
    positivity
  have hmat : 0 ≤ total_material_cost i := by
    unfold total_material_cost optical_block_manufacturing_cost
      optical_quartz_cost_per_block
    exact mul_nonneg (add_nonneg (add_nonneg hb (mul_nonneg hq (by norm_num))) ho) hmods
  have hlab : 0 ≤ total_labor_cost i := by
    unfold total_labor_cost
    exact mul_nonneg (mul_nonneg hs (by positivity)) (by positivity)
  have hdep : 0 ≤ depreciation_cost i := by
    unfold depreciation_cost annual_depreciation
    exact mul_nonneg (div_nonneg hsetup (by positivity)) (by positivity)
  show pytrunc (total_production_cost i) = _
  rw [pytrunc_of_nonneg (by unfold total_production_cost; positivity)]
  rfl

/-- C1 witness: the amended theorem applied at Scenario A. -/
theorem C1_witness :
    (outputs_of scenarioA).total_production_cost =
      ⌊total_material_cost scenarioA + total_labor_cost scenarioA +
        depreciation_cost scenarioA⌋ :=
  C1_total_production_cost_floor scenarioA (outputs_of scenarioA) rfl
    (by norm_num [ValidInputs, scenarioA])

/-- C2 counterexample: at `exC2` the required GLAB per month (1) strictly
exceeds the capacity (1/2), so the claim demands
`capacity_shortage > 0`; the code returns `production_feasible = false`
but `capacity_shortage = 0`, because the real shortage 1/2 is truncated
to 0. -/
theorem C2_counterexample :
    exC2.monthly_glab_capacity < required_glab_per_month exC2 ∧
    (calculate_costs exC2).map
      (fun o => (o.production_feasible, o.capacity_shortage)) = some (false, 0) := by
  constructor
  · norm_num [required_glab_per_month, exC2]
  · have h : calculate_costs exC2 = some (outputs_of exC2) := rfl
    rw [h]
    norm_num [outputs_of, pytrunc, production_feasible, required_glab_per_month,
      capacity_shortage, annual_glab_capacity, exC2,
      decide_eq_false_iff_not]

/-- C2 amended: whenever the required GLAB per month strictly exceeds
the monthly capacity, the code returns `production_feasible = false`,
the real-valued shortage `capacity_shortage i` is strictly positive,
and the returned `capacity_shortage` is its floor — hence non-negative
but possibly 0 when the real shortage is below 1. -/
theorem C2_infeasible (i : Inputs) (o : Outputs)
    (h : calculate_costs i = some o)
    (hcap : i.monthly_glab_capacity < required_glab_per_month i) :
    o.production_feasible = false ∧ 0 < capacity_shortage i ∧
      o.capacity_shortage = ⌊capacity_shortage i⌋ := by
  obtain ⟨h1, -, rfl⟩ := calculate_costs_some h
  have hm0 : (0 : ℚ) < (i.production_period_months : ℚ) := by
    exact_mod_cast Nat.pos_of_ne_zero h1
  have hlt : i.monthly_glab_capacity * (i.production_period_months : ℚ) <
      (i.target_glab_sales : ℚ) := by
    have := hcap
    rw [required_glab_per_month] at this
    exact (lt_div_iff₀ hm0).1 this
  refine ⟨?_, ?_, ?_⟩
  · show production_feasible i = false
    simp only [production_feasible, decide_eq_false_iff_not, not_le]
    exact hcap
  · have heq : annual_glab_capacity i * (i.production_period_months : ℚ) / 12 =
        i.monthly_glab_capacity * (i.production_period_months : ℚ) := by
      unfold annual_glab_capacity
      ring
    rw [capacity_shortage, heq]
    exact lt_of_lt_of_le (by linarith) (le_max_right 0 _)
  · exact pytrunc_of_nonneg (le_max_left 0 _)

/-- C2 witness: the amended theorem applied at `exC2`. -/
theorem C2_witness :
    (outputs_of exC2).production_feasible = false ∧ 0 < capacity_shortage exC2 ∧
      (outputs_of exC2).capacity_shortage = ⌊capacity_shortage exC2⌋ :=
  C2_infeasible exC2 (outputs_of exC2) rfl
    (by norm_num [required_glab_per_month, exC2])

/-- C3: at the Scenario A inputs the code returns the expected values;
the returned `annual_revenue` equals the floor of
`7200 * (50000000 / 12)`, which is exactly 30000000000. -/
theorem C3_scenarioA :
    (calculate_costs scenarioA).map
      (fun o => (o.total_optical_modules, o.optical_block_manufacturing_cost,
        o.total_material_cost, o.total_labor_cost, o.annual_depreciation,
        o.total_production_cost, o.annual_revenue)) =
      some (7200, 201000, 1447200000, 40000000, 6000000, 1493200000,
        ⌊(7200 : ℚ) * (50000000 / 12)⌋) := by
  have h : calculate_costs scenarioA = some (outputs_of scenarioA) := rfl
  rw [h]
  norm_num [outputs_of, pytrunc, total_optical_modules, modules_per_glab,
    optical_block_manufacturing_cost, optical_quartz_cost_per_block,
    total_material_cost, total_labor_cost, annual_depreciation,
    depreciation_cost, total_production_cost, annual_optical_modules,
    annual_revenue, scenarioA]

/-- C4 counterexample: at `exC4` the real-valued profit is `-3/2`; the
code truncates toward zero and returns `annual_profit = -1`, while the
mathematical floor of the difference is `-2`. -/
theorem C4_counterexample :
    (calculate_costs exC4).map Outputs.annual_profit = some (-1) ∧
    ⌊annual_revenue exC4 - annual_production_cost exC4⌋ = -2 := by
  constructor
  · have h : calculate_costs exC4 = some (outputs_of exC4) := rfl
    rw [h]
    norm_num [outputs_of, pytrunc, annual_profit, annual_revenue,
      annual_production_cost, annual_optical_modules, total_optical_modules,
      modules_per_glab, total_material_cost, total_labor_cost,
      optical_block_manufacturing_cost, optical_quartz_cost_per_block,
      annual_depreciation, exC4]
    rw [Int.ceil_neg]
    norm_num
  · norm_num [annual_revenue, annual_production_cost, annual_optical_modules,
      total_optical_modules, modules_per_glab, total_material_cost,
      total_labor_cost, optical_block_manufacturing_cost,
      optical_quartz_cost_per_block, annual_depreciation, exC4]

/-- C4 amended: the returned `annual_profit` is the truncation toward
zero of `annual_revenue - annual_production_cost` (Python `int(...)`),
which coincides with the mathematical floor whenever the real-valued
difference is non-negative, but not when it is negative and
non-integral. -/
theorem C4_annual_profit_trunc (i : Inputs) (o : Outputs)
    (h : calculate_costs i = some o) :
    o.annual_profit = pytrunc (annual_revenue i - annual_production_cost i) ∧
    (0 ≤ annual_revenue i - annual_production_cost i →
      o.annual_profit = ⌊annual_revenue i - annual_production_cost i⌋) := by
  obtain ⟨-, -, rfl⟩ := calculate_costs_some h
  refine ⟨rfl, fun hnn => ?_⟩
  show pytrunc (annual_profit i) = _
  rw [annual_profit, pytrunc_of_nonneg hnn]

/-- C4 witness: the amended theorem applied at Scenario A, where the
real-valued profit is non-negative. -/
theorem C4_witness :
    (outputs_of scenarioA).annual_profit =
      ⌊annual_revenue scenarioA - annual_production_cost scenarioA⌋ :=
  (C4_annual_profit_trunc scenarioA (outputs_of scenarioA) rfl).2
    (by norm_num [annual_revenue, annual_production_cost,
      annual_optical_modules, total_optical_modules, modules_per_glab,
      total_material_cost, total_labor_cost, optical_block_manufacturing_cost,
      optical_quartz_cost_per_block, annual_depreciation, scenarioA])

/-- C5 counterexample: at `exC5` the real-valued revenue is 1/2, so the
returned (truncated) `annual_revenue` is 0 while `profit_margin` is 100,
not 0 — the zero-revenue guard tests the unrounded local variable, not
the returned integer output. -/
theorem C5_counterexample :
    (calculate_costs exC5).map (fun o => (o.annual_revenue, o.profit_margin)) =
      some (0, 100) := by
  have h : calculate_costs exC5 = some (outputs_of exC5) := rfl
  rw [h]
  norm_num [outputs_of, pytrunc, profit_margin, annual_profit, annual_revenue,
    annual_production_cost, annual_optical_modules, total_optical_modules,
    modules_per_glab, total_material_cost, total_labor_cost,
    optical_block_manufacturing_cost, optical_quartz_cost_per_block,
    annual_depreciation, exC5]

/-- C5 amended: the guard at line 305 tests the unrounded real-valued
revenue: if it is 0 the returned `profit_margin` is 0 (no division is
reached), and if it is positive the returned `profit_margin` is the
real-valued `annual_profit / annual_revenue * 100` computed from the
unrounded local variables. -/
theorem C5_profit_margin (i : Inputs) (o : Outputs)
    (h : calculate_costs i = some o) :
    (annual_revenue i = 0 → o.profit_margin = 0) ∧
    (0 < annual_revenue i →
      o.profit_margin = annual_profit i / annual_revenue i * 100) := by
  obtain ⟨-, -, rfl⟩ := calculate_costs_some h
  constructor
  · intro h0
    show profit_margin i = 0
    simp [profit_margin, h0]
  · intro hpos
    show profit_margin i = _
    rw [profit_margin, if_pos hpos]

/-- C5 witness: the amended theorem applied at Scenario A, where the
real-valued revenue is positive. -/
theorem C5_witness :
    (outputs_of scenarioA).profit_margin =
      annual_profit scenarioA / annual_revenue scenarioA * 100 :=
  (C5_profit_margin scenarioA (outputs_of scenarioA) rfl).2
    (by norm_num [annual_revenue, annual_optical_modules,
      total_optical_modules, modules_per_glab, scenarioA])

/-- C6: for every input satisfying the stated constraints the call
succeeds and returns the full output record — no division by zero is
reached, since the only fallible denominators are
`production_period_months` and `depreciation_period_years`, both at
least 1. -/
theorem C6_no_failure (i : Inputs) (hv : ValidInputs i) :
    ∃ o, calculate_costs i = some o := by
  obtain ⟨h1, -, -, -, -, -, -, -, -, -, h11, -, -⟩ := hv
  exact ⟨outputs_of i,
    by rw [calculate_costs, if_neg (by omega), if_neg (by omega)]⟩

/-- C6 witness: Scenario A satisfies the constraints and the call
succeeds there. -/
theorem C6_witness :
    ValidInputs scenarioA ∧ ∃ o, calculate_costs scenarioA = some o :=
  ⟨by norm_num [ValidInputs, scenarioA],
    C6_no_failure scenarioA (by norm_num [ValidInputs, scenarioA])⟩

/-- C7: holding every other input fixed, a larger
`optical_module_price_won` never decreases the returned
`annual_revenue` or `annual_profit`. -/
theorem C7_price_monotone (i : Inputs) (p1 p2 : ℚ) (o1 o2 : Outputs)
    (hle : p1 ≤ p2)
    (h1 : calculate_costs { i with optical_module_price_won := p1 } = some o1)
    (h2 : calculate_costs { i with optical_module_price_won := p2 } = some o2) :
    o1.annual_revenue ≤ o2.annual_revenue ∧ o1.annual_profit ≤ o2.annual_profit := by
  obtain ⟨-, -, rfl⟩ := calculate_costs_some h1
  obtain ⟨-, -, rfl⟩ := calculate_costs_some h2
  have haom : 0 ≤ annual_optical_modules { i with optical_module_price_won := p1 } := by
    unfold annual_optical_modules total_optical_modules
    push_cast
    positivity
  have hrev : annual_revenue { i with optical_module_price_won := p1 } ≤
      annual_revenue { i with optical_module_price_won := p2 } := by
    show annual_optical_modules { i with optical_module_price_won := p1 } * p1 ≤
      annual_optical_modules { i with optical_module_price_won := p2 } * p2
    exact mul_le_mul_of_nonneg_left hle haom
  have hcost : annual_production_cost { i with optical_module_price_won := p1 } =
      annual_production_cost { i with optical_module_price_won := p2 } := rfl
  have hprofit : annual_profit { i with optical_module_price_won := p1 } ≤
      annual_profit { i with optical_module_price_won := p2 } := by
    unfold annual_profit
    rw [hcost]
    exact sub_le_sub_right hrev _
  exact ⟨pytrunc_mono hrev, pytrunc_mono hprofit⟩

/-- C7 witness: the monotonicity theorem applied at Scenario A with
prices 0 and 1. -/
theorem C7_witness :
    (outputs_of { scenarioA with optical_module_price_won := 0 }).annual_revenue ≤
      (outputs_of { scenarioA with optical_module_price_won := 1 }).annual_revenue ∧
    (outputs_of { scenarioA with optical_module_price_won := 0 }).annual_profit ≤
      (outputs_of { scenarioA with optical_module_price_won := 1 }).annual_profit :=
  C7_price_monotone scenarioA 0 1 _ _ (by norm_num) rfl rfl

/-- C8: the returned `monthly_optical_modules` is the floor of
`total_optical_modules / production_period_months`, and the returned
`daily_optical_modules` equals the floor of the floored monthly output
divided by 30 — even though line 280 divides the unfloored monthly
value, the two agree by the floor-of-division identity. -/
theorem C8_monthly_daily (i : Inputs) (o : Outputs)
    (h : calculate_costs i = some o) :
    o.monthly_optical_modules = ⌊monthly_optical_modules i⌋ ∧
    o.daily_optical_modules = ⌊(o.monthly_optical_modules : ℚ) / 30⌋ := by
  obtain ⟨-, -, rfl⟩ := calculate_costs_some h
  have hnn : 0 ≤ monthly_optical_modules i := by
    unfold monthly_optical_modules total_optical_modules
    push_cast
    positivity
  have hm : (outputs_of i).monthly_optical_modules = ⌊monthly_optical_modules i⌋ :=
    pytrunc_of_nonneg hnn
  refine ⟨hm, ?_⟩
  have hd : 0 ≤ daily_optical_modules i := div_nonneg hnn (by norm_num)
  show pytrunc (daily_optical_modules i) = _
  rw [pytrunc_of_nonneg hd, hm]
  have e1 : ⌊monthly_optical_modules i / (30 : ℚ)⌋ =
      ⌊monthly_optical_modules i⌋ / (30 : ℤ) := by
    have := intFloor_div_natCast (monthly_optical_modules i) 30 (by norm_num)
    simpa using this
  have e2 : ⌊((⌊monthly_optical_modules i⌋ : ℤ) : ℚ) / (30 : ℚ)⌋ =
      ⌊monthly_optical_modules i⌋ / (30 : ℤ) := by
    have := Rat.floor_intCast_div_natCast ⌊monthly_optical_modules i⌋ 30
    simpa using this
  rw [daily_optical_modules, e1, ← e2]

/-- C8 witness: the theorem applied at Scenario A. -/
theorem C8_witness :
    (outputs_of scenarioA).monthly_optical_modules =
      ⌊monthly_optical_modules scenarioA⌋ ∧
    (outputs_of scenarioA).daily_optical_modules =
      ⌊((outputs_of scenarioA).monthly_optical_modules : ℚ) / 30⌋ :=
  C8_monthly_daily scenarioA (outputs_of scenarioA) rfl

/-- C9: the returned `total_optical_modules` is exactly
`target_glab_sales * 12`, with no rounding loss. -/
theorem C9_total_modules (i : Inputs) (o : Outputs)
    (h : calculate_costs i = some o) :
    o.total_optical_modules = (i.target_glab_sales : ℤ) * 12 := by
  obtain ⟨-, -, rfl⟩ := calculate_costs_some h
  rfl

/-- C9 witness: the theorem applied at Scenario A. -/
theorem C9_witness :
    (outputs_of scenarioA).total_optical_modules =
      (scenarioA.target_glab_sales : ℤ) * 12 :=
  C9_total_modules scenarioA (outputs_of scenarioA) rfl

/-- C10: when `monthly_glab_capacity` is supplied as exactly
`target_glab_sales / production_period_months` (as `main` computes it at
line 57 before every call), the call returns `production_feasible = true`
and `capacity_shortage = 0`: the infeasible branch is unreachable under
this upstream derivation. -/
theorem C10_derived_capacity_feasible (i : Inputs) (o : Outputs)
    (h : calculate_costs i = some o)
    (hcap : i.monthly_glab_capacity =
      (i.target_glab_sales : ℚ) / (i.production_period_months : ℚ)) :
    o.production_feasible = true ∧ o.capacity_shortage = 0 := by
  obtain ⟨h1, -, rfl⟩ := calculate_costs_some h
  have hm0 : ((i.production_period_months : ℚ)) ≠ 0 := Nat.cast_ne_zero.2 h1
  constructor
  · show production_feasible i = true
    simp only [production_feasible, decide_eq_true_eq, required_glab_per_month,
      hcap, le_refl]
  · show pytrunc (capacity_shortage i) = 0
    have hz : capacity_shortage i = 0 := by
      unfold capacity_shortage annual_glab_capacity
      rw [hcap]
      rw [show (i.target_glab_sales : ℚ) / (i.production_period_months : ℚ) * 12 *
          (i.production_period_months : ℚ) / 12 = (i.target_glab_sales : ℚ) by
        field_simp]
      simp
    rw [hz, pytrunc_of_nonneg le_rfl, Int.floor_zero]

/-- C10 witness: Scenario A supplies the capacity exactly as derived
(`50 = 600 / 12`), and the call returns feasibility with zero shortage. -/
theorem C10_witness :
    (outputs_of scenarioA).production_feasible = true ∧
      (outputs_of scenarioA).capacity_shortage = 0 :=
  C10_derived_capacity_feasible scenarioA (outputs_of scenarioA) rfl
    (by norm_num [scenarioA])

end CostCalc
